import Mathlib

/-!
Verification of the market-data core of `crypto_exchange_handler`
(`src/crypto_exchange_handler/exchange_template.py`).

Shallow embedding conventions:

* A Python candle record is a `dict`; Python dicts preserve insertion order,
  so a record is modeled as an association list `List (String × α)` where `α`
  is the type of the stored numeric values (Python `float`).
* Python's `str(value)` and `float(string)` are abstracted as parameters
  `pyStr : α → String` and `pyFloat : String → Option α` (`float` raises
  `ValueError` on unparseable input, hence `Option`).
* The CSV file is modeled at row granularity as `List (List String)`: one
  entry per line, one cell per column.  `csv.writer`/`csv.reader` with the
  comma delimiter are mutually inverse at this granularity for cells that
  contain no delimiter, quote character or newline, which holds for every
  string `str` produces from a `float`.
* Python exceptions are modeled with `Except PyErr`; an uncaught exception
  is an `Except.error` result (the `with` block closes the file either way).
* `dump_market_data_to_file` additionally returns the list of retrieval
  calls it performed on the exchange adapter, so that "performs no
  retrieval" is directly statable, and its result constructor records
  whether a file was created (Python's `open(file, "w")` creates/truncates
  the file before anything is written).
-/

namespace CryptoExchangeHandler

/-- Error kinds that can surface from the modeled code.  `indexError` and
`valueError` model the Python exceptions raised inside
`load_market_data_file` / `dump_market_data_to_file`; `notImplementedError`
models `raise NotImplementedError` in the capability stubs; `networkError`
and `businessError` stand for the other fault kinds of the spec's taxonomy,
present only so that distinctness from `notImplementedError` is statable. -/
inductive PyErr where
  | indexError
  | valueError
  | notImplementedError
  | networkError
  | businessError
  deriving DecidableEq, Repr

/-- A candle record: a Python dict from field name to numeric value,
in insertion order. -/
abbrev Record (α : Type) := List (String × α)

/-- The credential bundle stored by `ExchangeAPI.__init__`
 (exchange_template.py lines 25-45). -/
structure ExchangeAPI where
  name : String
  access_key : String
  secret_key : String
  api_passphrase : Option String
  deriving DecidableEq, Repr

/-- `ExchangeAPI.__init__`: stores `name.lower()` and the three keys as
given (exchange_template.py lines 42-45). -/
def ExchangeAPI.init (name access_key secret_key : String)
    (api_passphrase : Option String) : ExchangeAPI :=
  ⟨name.toLower, access_key, secret_key, api_passphrase⟩

/-- `ExchangeAPI.get_all_balances` (line 54): `raise NotImplementedError`. -/
def ExchangeAPI.get_all_balances (_self : ExchangeAPI) :
    Except PyErr (List (String × String)) :=
  .error .notImplementedError

/-- `ExchangeAPI.get_balance` (line 63): `raise NotImplementedError`. -/
def ExchangeAPI.get_balance (_self : ExchangeAPI) (_coin : String) :
    Except PyErr String :=
  .error .notImplementedError

/-- `ExchangeAPI.get_available_markets` (line 66): `raise NotImplementedError`. -/
def ExchangeAPI.get_available_markets (_self : ExchangeAPI) :
    Except PyErr (List String) :=
  .error .notImplementedError

/-- `ExchangeAPI.get_coin_price` (line 69): `raise NotImplementedError`. -/
def ExchangeAPI.get_coin_price (_self : ExchangeAPI) (_name _pair : String) :
    Except PyErr String :=
  .error .notImplementedError

/-- `ExchangeAPI.get_coins_prices` (line 72): `raise NotImplementedError`. -/
def ExchangeAPI.get_coins_prices (_self : ExchangeAPI) :
    Except PyErr (List (String × String)) :=
  .error .notImplementedError

/-- `ExchangeAPI.get_order_book` (line 75): `raise NotImplementedError`. -/
def ExchangeAPI.get_order_book (_self : ExchangeAPI) (_market _side : String) :
    Except PyErr (List String) :=
  .error .notImplementedError

/-- `ExchangeAPI.withdraw_asset` (line 90): `raise NotImplementedError`. -/
def ExchangeAPI.withdraw_asset (_self : ExchangeAPI)
    (_asset _target_addr _amount : String) : Except PyErr Unit :=
  .error .notImplementedError

/-- `ExchangeAPI.create_order` (line 93): `raise NotImplementedError`. -/
def ExchangeAPI.create_order (_self : ExchangeAPI)
    (_market _side _price _amount : String) : Except PyErr String :=
  .error .notImplementedError

/-- `ExchangeAPI.get_candles` (line 96): `raise NotImplementedError`. -/
def ExchangeAPI.get_candles (α : Type) (_self : ExchangeAPI)
    (_symbol _interval _start : String) (_end : Option String) :
    Except PyErr (List (Record α)) :=
  .error .notImplementedError

/-- `ExchangeAPI.get_last_candles` (line 99): `raise NotImplementedError`. -/
def ExchangeAPI.get_last_candles (α : Type) (_self : ExchangeAPI)
    (_symbol _interval : String) (_amount : Nat) :
    Except PyErr (List (Record α)) :=
  .error .notImplementedError

/-- Occurrence of `pat` as a contiguous sublist of the second argument, the
semantics of Python's `str.find` returning a non-negative index. -/
def listHasInfix (pat : List Char) : List Char → Bool
  | [] => pat.isEmpty
  | c :: cs => pat.isPrefixOf (c :: cs) || listHasInfix pat cs

/-- `file.find(".csv") != -1`: Python `str.find` locates `".csv"` as a
substring anywhere in the path (exchange_template.py line 148). -/
def containsCsv (file : String) : Bool :=
  listHasInfix ".csv".data file.data

/-- Spec-side notion, for comparison with `containsCsv`: the path "carries
the CSV file extension", i.e. ends with `".csv"`.  Modeled from the spec
wording, not from the source. -/
def hasCsvExtension (file : String) : Bool :=
  List.isSuffixOf ".csv".data file.data

/-- `float(row[i])` (exchange_template.py lines 161-165): `row[i]` raises
`IndexError` when the row is too short, and `float` raises `ValueError`
when the cell does not parse. -/
def parseCell {α : Type} (pyFloat : String → Option α) (row : List String)
    (i : Nat) : Except PyErr α :=
  match row[i]? with
  | none => .error .indexError
  | some s =>
    match pyFloat s with
    | none => .error .valueError
    | some v => .ok v

/-- The dict built for one data row (exchange_template.py lines 160-166):
`{"ts": float(row[0]), "open": float(row[1]), "high": float(row[2]),
"low": float(row[3]), "close": float(row[4])}`, with Python's left-to-right
evaluation order of the five cells. -/
def parseRow {α : Type} (pyFloat : String → Option α) (row : List String) :
    Except PyErr (Record α) :=
  match parseCell pyFloat row 0 with
  | .error e => .error e
  | .ok v0 =>
    match parseCell pyFloat row 1 with
    | .error e => .error e
    | .ok v1 =>
      match parseCell pyFloat row 2 with
      | .error e => .error e
      | .ok v2 =>
        match parseCell pyFloat row 3 with
        | .error e => .error e
        | .ok v3 =>
          match parseCell pyFloat row 4 with
          | .error e => .error e
          | .ok v4 =>
            .ok [("ts", v0), ("open", v1), ("high", v2), ("low", v3),
                 ("close", v4)]

/-- The loop body of `load_market_data_file` over the data rows
(exchange_template.py lines 158-168): each row is parsed and appended; an
exception aborts the whole loop, so no partial list escapes. -/
def parseRows {α : Type} (pyFloat : String → Option α) :
    List (List String) → Except PyErr (List (Record α))
  | [] => .ok []
  | r :: rs =>
    match parseRow pyFloat r with
    | .error e => .error e
    | .ok c =>
      match parseRows pyFloat rs with
      | .error e => .error e
      | .ok cs => .ok (c :: cs)

/-- Result of `load_market_data_file` when no exception escapes:
`invalidFile` models the `print("ERROR: Please provide .csv file")`
followed by `return -1`; `candles cs` models `return tuple(candles)`. -/
inductive LoadResult (α : Type) where
  | invalidFile
  | candles (cs : List (Record α))
  deriving DecidableEq, Repr

/-- `ExchangeAPI.load_market_data_file` (exchange_template.py lines
146-171), applied to a path and to the rows `csv.reader` yields from the
file at that path.  The first row (`line_count == 0`) is skipped whatever
its content; every later row is parsed by `parseRow`. -/
def load_market_data_file {α : Type} (pyFloat : String → Option α)
    (file : String) (content : List (List String)) :
    Except PyErr (LoadResult α) :=
  if containsCsv file then
    match content with
    | [] => .ok (.candles [])
    | _hdr :: rest =>
      match parseRows pyFloat rest with
      | .error e => .error e
      | .ok cs => .ok (.candles cs)
  else
    .ok .invalidFile

/-- One retrieval call performed by `dump_market_data_to_file` on the
adapter (exchange_template.py lines 127 and 130). -/
inductive RetrievalCall where
  | lastCandles (symbol interval : String) (amount : Nat)
  | rangeCandles (symbol interval start : String) (end_ : Option String)
  deriving DecidableEq, Repr

/-- Outcome of `dump_market_data_to_file`:
`errMissingParams` models `print("ERROR: Wrong paramaters...")` + `return`
before any file is opened; `wrote content` models a successfully written
file with those rows; `createdThenRaised e` models `open(file, "w")`
having created/truncated the file, after which the exception `e` escaped
(this is what happens on `candles[0]` when the retrieval was empty). -/
inductive DumpResult where
  | errMissingParams
  | wrote (content : List (List String))
  | createdThenRaised (e : PyErr)
  deriving DecidableEq, Repr

/-- The write phase of `dump_market_data_to_file` (exchange_template.py
lines 135-144): header = `list(candles[0].keys())` — an `IndexError` when
`candles` is empty, raised after `open` already created the file — then one
row of stringified values per candle, in dict order. -/
def dumpRows {α : Type} (pyStr : α → String) (candles : List (Record α)) :
    DumpResult :=
  match candles with
  | [] => .createdThenRaised .indexError
  | c0 :: _ =>
    .wrote ((c0.map Prod.fst) ::
      candles.map (fun c => c.map (fun kv => pyStr kv.2)))

/-- `ExchangeAPI.dump_market_data_to_file` (exchange_template.py lines
105-144).  The two adapter retrieval operations are passed in as oracles
(`self.get_last_candles`, `self.get_candles`); the second component of the
result lists the retrieval calls actually performed. -/
def dump_market_data_to_file {α : Type} (pyStr : α → String)
    (get_last_candles : String → String → Nat → List (Record α))
    (get_candles : String → String → String → Option String → List (Record α))
    (symbol interval : String) (_file : String)
    (amount : Option Nat) (start : Option String) (end_ : Option String) :
    DumpResult × List RetrievalCall :=
  match amount with
  | some a =>
    (dumpRows pyStr (get_last_candles symbol interval a),
     [.lastCandles symbol interval a])
  | none =>
    match start with
    | some s =>
      (dumpRows pyStr (get_candles symbol interval s end_),
       [.rangeCandles symbol interval s end_])
    | none => (.errMissingParams, [])

/-- The malformed-row condition of the spec: fewer than 5 columns, or a
value in the first five columns that does not parse as a float. -/
def malformedRow {α : Type} (pyFloat : String → Option α)
    (row : List String) : Bool :=
  decide (row.length < 5) ||
    (List.range 5).any fun i =>
      match row[i]? with
      | some s => (pyFloat s).isNone
      | none => false

/-- Spec-side row schema (modeled from the spec wording, for the
refinement statement of the load algorithm): exactly 5 columns, in the
fixed order ts, open, high, low, close, all parseable as floats. -/
def parseRowSpec {α : Type} (pyFloat : String → Option α)
    (row : List String) : Option (Record α) :=
  match row with
  | [s0, s1, s2, s3, s4] =>
    match pyFloat s0, pyFloat s1, pyFloat s2, pyFloat s3, pyFloat s4 with
    | some v0, some v1, some v2, some v3, some v4 =>
      some [("ts", v0), ("open", v1), ("high", v2), ("low", v3),
            ("close", v4)]
    | _, _, _, _, _ => none
  | _ => none

/-- Spec-side file schema: every data row matches `parseRowSpec`. -/
def parseRowsSpec {α : Type} (pyFloat : String → Option α) :
    List (List String) → Option (List (Record α))
  | [] => some []
  | r :: rs =>
    match parseRowSpec pyFloat r, parseRowsSpec pyFloat rs with
    | some c, some cs => some (c :: cs)
    | _, _ => none

/-- Value of a decimal digit character, `none` on anything else.  Used to
instantiate `pyFloat` in concrete witnesses. -/
def digitVal (c : Char) : Option Nat :=
  if 48 ≤ c.toNat ∧ c.toNat ≤ 57 then some (c.toNat - 48) else none

/-- Accumulating decimal reader over a character list. -/
def natFromCharsAux : List Char → Nat → Option Nat
  | [], acc => some acc
  | c :: cs, acc =>
    match digitVal c with
    | some d => natFromCharsAux cs (acc * 10 + d)
    | none => none

/-- A concrete instantiation of `pyFloat` for witnesses: parses a non-empty
string of decimal digits to a natural number. -/
def pyFloatNat (s : String) : Option Nat :=
  match s.data with
  | [] => none
  | l => natFromCharsAux l 0

/-- Decimal printer with explicit fuel so that it is structurally
recursive (and hence kernel-reducible on closed inputs). -/
def natToCharsAux : Nat → Nat → List Char → List Char
  | 0, _, acc => acc
  | fuel + 1, n, acc =>
    if n < 10 then Nat.digitChar n :: acc
    else natToCharsAux fuel (n / 10) (Nat.digitChar (n % 10) :: acc)

/-- A concrete instantiation of `pyStr` for witnesses: decimal rendering of
a natural number. -/
def pyStrNat (n : Nat) : String :=
  String.mk (natToCharsAux (n + 1) n [])

/-! ## Helper lemmas about the row parser -/

theorem parseCell_ok_cell {α : Type} {pyFloat : String → Option α}
    {row : List String} {i : Nat} {v : α}
    (h : parseCell pyFloat row i = .ok v) :
    ∃ s, row[i]? = some s ∧ pyFloat s = some v := by
  rcases hg : row[i]? with _ | s
  · simp [parseCell, hg] at h
  · rcases hp : pyFloat s with _ | w
    · simp [parseCell, hg, hp] at h
    · simp [parseCell, hg, hp] at h
      exact ⟨s, rfl, by rw [hp, h]⟩

theorem parseCell_eval {α : Type} {pyFloat : String → Option α}
    {row : List String} {i : Nat} {s : String} {v : α}
    (hg : row[i]? = some s) (hp : pyFloat s = some v) :
    parseCell pyFloat row i = .ok v := by
  simp [parseCell, hg, hp]

theorem parseRow_ok_cells {α : Type} {pyFloat : String → Option α}
    {row : List String} {c : Record α}
    (h : parseRow pyFloat row = .ok c) :
    ∀ i, i < 5 → ∃ s v, row[i]? = some s ∧ pyFloat s = some v := by
  unfold parseRow at h
  cases hc0 : parseCell pyFloat row 0 with
  | error e => simp [hc0] at h
  | ok v0 =>
  simp only [hc0] at h
  cases hc1 : parseCell pyFloat row 1 with
  | error e => simp [hc1] at h
  | ok v1 =>
  simp only [hc1] at h
  cases hc2 : parseCell pyFloat row 2 with
  | error e => simp [hc2] at h
  | ok v2 =>
  simp only [hc2] at h
  cases hc3 : parseCell pyFloat row 3 with
  | error e => simp [hc3] at h
  | ok v3 =>
  simp only [hc3] at h
  cases hc4 : parseCell pyFloat row 4 with
  | error e => simp [hc4] at h
  | ok v4 =>
  intro i hi
  interval_cases i
  · obtain ⟨s, hg, hp⟩ := parseCell_ok_cell hc0
    exact ⟨s, v0, hg, hp⟩
  · obtain ⟨s, hg, hp⟩ := parseCell_ok_cell hc1
    exact ⟨s, v1, hg, hp⟩
  · obtain ⟨s, hg, hp⟩ := parseCell_ok_cell hc2
    exact ⟨s, v2, hg, hp⟩
  · obtain ⟨s, hg, hp⟩ := parseCell_ok_cell hc3
    exact ⟨s, v3, hg, hp⟩
  · obtain ⟨s, hg, hp⟩ := parseCell_ok_cell hc4
    exact ⟨s, v4, hg, hp⟩

theorem parseRow_eval {α : Type} (pyFloat : String → Option α)
    (s0 s1 s2 s3 s4 : String) (rest : List String) (v0 v1 v2 v3 v4 : α)
    (h0 : pyFloat s0 = some v0) (h1 : pyFloat s1 = some v1)
    (h2 : pyFloat s2 = some v2) (h3 : pyFloat s3 = some v3)
    (h4 : pyFloat s4 = some v4) :
    parseRow pyFloat (s0 :: s1 :: s2 :: s3 :: s4 :: rest)
      = .ok [("ts", v0), ("open", v1), ("high", v2), ("low", v3),
             ("close", v4)] := by
  simp [parseRow, parseCell, h0, h1, h2, h3, h4]

theorem parseRow_not_ok_of_malformed {α : Type} {pyFloat : String → Option α}
    {row : List String} (hm : malformedRow pyFloat row = true)
    (c : Record α) : parseRow pyFloat row ≠ .ok c := by
  intro h
  have hcells := parseRow_ok_cells h
  have hlen : 5 ≤ row.length := by
    obtain ⟨s, v, hg, _⟩ := hcells 4 (by omega)
    by_contra hlt
    rw [List.getElem?_eq_none (by omega)] at hg
    exact Option.noConfusion hg
  unfold malformedRow at hm
  simp only [Bool.or_eq_true, decide_eq_true_eq, List.any_eq_true,
    List.mem_range] at hm
  rcases hm with hlt | ⟨i, hi5, hbad⟩
  · omega
  · obtain ⟨s, v, hg, hp⟩ := hcells i hi5
    rw [hg] at hbad
    simp [hp] at hbad

theorem parseRows_error_of_mem {α : Type} {pyFloat : String → Option α}
    {rows : List (List String)} {row : List String}
    (hmem : row ∈ rows) (hrow : ∀ c : Record α, parseRow pyFloat row ≠ .ok c) :
    ∃ e, parseRows pyFloat rows = .error e := by
  induction rows with
  | nil => cases hmem
  | cons r rs ih =>
    cases h : parseRow pyFloat r with
    | error e => exact ⟨e, by simp [parseRows, h]⟩
    | ok c =>
      rcases List.mem_cons.mp hmem with heq | hmem'
      · subst heq
        exact absurd h (hrow c)
      · obtain ⟨e, he⟩ := ih hmem'
        exact ⟨e, by simp [parseRows, h, he]⟩

theorem parseRowSpec_parseRow {α : Type} {pyFloat : String → Option α}
    {row : List String} {c : Record α}
    (h : parseRowSpec pyFloat row = some c) :
    parseRow pyFloat row = .ok c := by
  rw [parseRowSpec.eq_def] at h
  split at h
  · split at h
    · injection h with h
      subst h
      refine parseRow_eval pyFloat _ _ _ _ _ [] _ _ _ _ _ ?_ ?_ ?_ ?_ ?_ <;>
        assumption
    · exact Option.noConfusion h
  · exact Option.noConfusion h

theorem parseRowsSpec_parseRows {α : Type} {pyFloat : String → Option α} :
    ∀ {rows : List (List String)} {recs : List (Record α)},
      parseRowsSpec pyFloat rows = some recs →
      parseRows pyFloat rows = .ok recs := by
  intro rows
  induction rows with
  | nil =>
    intro recs h
    have h' : (some [] : Option (List (Record α))) = some recs := h
    injection h' with h'
    rw [← h']
    rfl
  | cons r rs ih =>
    intro recs h
    cases hc : parseRowSpec pyFloat r with
    | none =>
      rw [parseRowsSpec.eq_def] at h
      simp [hc] at h
    | some c =>
      cases hcs : parseRowsSpec pyFloat rs with
      | none =>
        rw [parseRowsSpec.eq_def] at h
        simp [hc, hcs] at h
      | some cs =>
        rw [parseRowsSpec.eq_def] at h
        simp only [hc, hcs, Option.some.injEq] at h
        rw [← h]
        simp [parseRows, parseRowSpec_parseRow hc, ih hcs]

theorem parseRow_printRow {α : Type} {pyStr : α → String}
    {pyFloat : String → Option α} {c : Record α}
    (hk : c.map Prod.fst = ["ts", "open", "high", "low", "close"])
    (hr : ∀ kv ∈ c, pyFloat (pyStr kv.2) = some kv.2) :
    parseRow pyFloat (c.map fun kv => pyStr kv.2) = .ok c := by
  rcases c with _ | ⟨⟨k0, v0⟩, c⟩; · simp at hk
  rcases c with _ | ⟨⟨k1, v1⟩, c⟩; · simp at hk
  rcases c with _ | ⟨⟨k2, v2⟩, c⟩; · simp at hk
  rcases c with _ | ⟨⟨k3, v3⟩, c⟩; · simp at hk
  rcases c with _ | ⟨⟨k4, v4⟩, c⟩; · simp at hk
  rcases c with _ | ⟨p, c⟩
  · simp only [List.map_cons, List.map_nil, List.cons.injEq,
      and_true] at hk
    obtain ⟨rfl, rfl, rfl, rfl, rfl⟩ := hk
    have h0 := hr ("ts", v0) (by simp)
    have h1 := hr ("open", v1) (by simp)
    have h2 := hr ("high", v2) (by simp)
    have h3 := hr ("low", v3) (by simp)
    have h4 := hr ("close", v4) (by simp)
    simpa using parseRow_eval pyFloat (pyStr v0) (pyStr v1) (pyStr v2)
      (pyStr v3) (pyStr v4) [] v0 v1 v2 v3 v4 h0 h1 h2 h3 h4
  · simp at hk

theorem parseRows_printRows {α : Type} {pyStr : α → String}
    {pyFloat : String → Option α} :
    ∀ {seq : List (Record α)},
      (∀ c ∈ seq, c.map Prod.fst = ["ts", "open", "high", "low", "close"]) →
      (∀ c ∈ seq, ∀ kv ∈ c, pyFloat (pyStr kv.2) = some kv.2) →
      parseRows pyFloat (seq.map fun c => c.map fun kv => pyStr kv.2)
        = .ok seq := by
  intro seq
  induction seq with
  | nil => intro _ _; simp [parseRows]
  | cons c cs ih =>
    intro hk hr
    have h1 := parseRow_printRow (hk c (List.mem_cons_self c cs))
      (hr c (List.mem_cons_self c cs))
    have h2 := ih (fun d hd => hk d (List.mem_cons_of_mem c hd))
      (fun d hd => hr d (List.mem_cons_of_mem c hd))
    simp [parseRows, h1, h2]

/-! ## Claim theorems -/

/-- C3: when both `amount` and `start` are `None`,
`dump_market_data_to_file` takes the `print("ERROR: Wrong paramaters...")`
branch and returns before any retrieval call or file creation: the outcome
is the missing-selection condition, the retrieval-call trace is empty, and
no file content is produced (only the `wrote`/`createdThenRaised` outcomes
correspond to an `open(file, "w")` having happened). -/
theorem C3_missing_selection_no_io {α : Type} (pyStr : α → String)
    (glc : String → String → Nat → List (Record α))
    (gc : String → String → String → Option String → List (Record α))
    (symbol interval file : String) (end_ : Option String) :
    dump_market_data_to_file pyStr glc gc symbol interval file
      none none end_ = (.errMissingParams, []) :=
  rfl

/-- C7: if `amount` is supplied, candles come from
`get_last_candles(symbol, interval, amount)` even when `start` is also
given (amount takes precedence); otherwise if `start` is supplied they come
from `get_candles(symbol, interval, start, end)`.  The retrieval-call trace
records exactly the one call that was made. -/
theorem C7_selection_precedence {α : Type} (pyStr : α → String)
    (glc : String → String → Nat → List (Record α))
    (gc : String → String → String → Option String → List (Record α))
    (symbol interval file : String) (a : Nat) (s : String)
    (start end_ : Option String) :
    dump_market_data_to_file pyStr glc gc symbol interval file
        (some a) start end_
      = (dumpRows pyStr (glc symbol interval a),
         [.lastCandles symbol interval a]) ∧
    dump_market_data_to_file pyStr glc gc symbol interval file
        none (some s) end_
      = (dumpRows pyStr (gc symbol interval s end_),
         [.rangeCandles symbol interval s end_]) :=
  ⟨rfl, rfl⟩

/-- C8: every capability operation left unimplemented on the base class
fails with `NotImplementedError`, for every receiver and every input, and
that fault kind is distinct from the network and business error kinds. -/
theorem C8_unimplemented_capabilities (api : ExchangeAPI)
    (coin name pair market side asset target_addr amount price : String)
    (symbol interval start : String) (end_ : Option String) (n : Nat)
    (α : Type) :
    api.get_all_balances = .error .notImplementedError ∧
    api.get_balance coin = .error .notImplementedError ∧
    api.get_available_markets = .error .notImplementedError ∧
    api.get_coin_price name pair = .error .notImplementedError ∧
    api.get_coins_prices = .error .notImplementedError ∧
    api.get_order_book market side = .error .notImplementedError ∧
    api.withdraw_asset asset target_addr amount = .error .notImplementedError ∧
    api.create_order market side price amount = .error .notImplementedError ∧
    api.get_candles α symbol interval start end_
      = .error .notImplementedError ∧
    api.get_last_candles α symbol interval n = .error .notImplementedError ∧
    PyErr.notImplementedError ≠ PyErr.networkError ∧
    PyErr.notImplementedError ≠ PyErr.businessError :=
  ⟨rfl, rfl, rfl, rfl, rfl, rfl, rfl, rfl, rfl, rfl,
   by decide, by decide⟩

/-- C9: the constructor stores `name.lower()` and stores `access_key`,
`secret_key` and `api_passphrase` exactly as given.  In this embedding
every operation of the core is a pure function that neither takes back nor
returns a modified bundle, so the bundle is immutable after construction
(the Python methods never assign to `self`). -/
theorem C9_credential_bundle (name access_key secret_key : String)
    (api_passphrase : Option String) :
    (ExchangeAPI.init name access_key secret_key api_passphrase).name
        = name.toLower ∧
    (ExchangeAPI.init name access_key secret_key api_passphrase).access_key
        = access_key ∧
    (ExchangeAPI.init name access_key secret_key api_passphrase).secret_key
        = secret_key ∧
    (ExchangeAPI.init name access_key secret_key
        api_passphrase).api_passphrase = api_passphrase :=
  ⟨rfl, rfl, rfl, rfl⟩

/-- C10: a file whose path passes the `.csv` check and whose content has at
most one line — nothing at all, or only a header line — loads as the empty
tuple: the first line is skipped, the loop body never parses anything, and
`tuple(candles)` is empty. -/
theorem C10_header_only_loads_empty {α : Type}
    (pyFloat : String → Option α) (file : String)
    (hf : containsCsv file = true) (hdr : List String) :
    load_market_data_file pyFloat file [] = .ok (.candles []) ∧
    load_market_data_file pyFloat file [hdr] = .ok (.candles []) := by
  simp [load_market_data_file, hf, parseRows]

/-- C10 witness: the concrete path `"data.csv"` with a header-only content
loads as the empty sequence. -/
theorem C10_header_only_loads_empty_witness :
    load_market_data_file pyFloatNat "data.csv"
        [["ts", "open", "high", "low", "close"]]
      = .ok (.candles []) :=
  (C10_header_only_loads_empty pyFloatNat "data.csv" (by decide)
    ["ts", "open", "high", "low", "close"]).2

/-- C4 counterexample: the claim "every path that does not carry the CSV
file extension fails with invalid-file-type and is not read" is false.
The path `"data.csv.txt"` does not end with `".csv"`, yet
`load_market_data_file` accepts it (the code only checks that `".csv"`
occurs somewhere via `str.find`), reads the file and returns parsed
candles instead of the `-1` sentinel — and the result depends on the
file's content, so a read is performed. -/
theorem C4_counterexample :
    hasCsvExtension "data.csv.txt" = false ∧
    load_market_data_file pyFloatNat "data.csv.txt"
        [["h"], ["1", "2", "3", "4", "5"]]
      = .ok (.candles [[("ts", 1), ("open", 2), ("high", 3), ("low", 4),
          ("close", 5)]]) ∧
    load_market_data_file pyFloatNat "data.csv.txt"
        [["h"], ["1", "2", "3", "4", "5"]]
      ≠ load_market_data_file pyFloatNat "data.csv.txt" [["h"]] := by
  refine ⟨by decide, rfl, ?_⟩
  intro h
  exact absurd (congrArg
    (fun r =>
      match r with
      | .ok (.candles cs) => cs.length
      | _ => 0) h) (by decide)

/-- C4 amended: for every path in which `".csv"` does not occur as a
substring (Python `file.find(".csv") == -1`), `load_market_data_file`
prints the invalid-file-type error and returns the `-1` sentinel, for
every possible file content — so no read of the file influences the
result.  A path merely lacking the `.csv` extension, such as
`"data.csv.txt"`, is however accepted. -/
theorem C4_no_csv_substring_rejected {α : Type}
    (pyFloat : String → Option α) (file : String)
    (h : containsCsv file = false) (content : List (List String)) :
    load_market_data_file pyFloat file content = .ok .invalidFile := by
  simp [load_market_data_file, h]

/-- C4 witness: `load("data.txt")` fails with the invalid-file-type
sentinel whatever the file holds. -/
theorem C4_no_csv_substring_rejected_witness :
    load_market_data_file pyFloatNat "data.txt"
        [["1", "2", "3", "4", "5"], ["6", "7", "8", "9", "10"]]
      = .ok .invalidFile :=
  C4_no_csv_substring_rejected pyFloatNat "data.txt" (by decide)
    [["1", "2", "3", "4", "5"], ["6", "7", "8", "9", "10"]]

/-- C5 counterexample: the claim "dump never crashes with an
index-out-of-range fault when the retrieval returns an empty sequence" is
false.  With an adapter whose `get_last_candles` returns zero candles,
`dump_market_data_to_file` opens (and thereby creates/truncates) the
destination file and then raises `IndexError` on `candles[0].keys()`. -/
theorem C5_counterexample :
    dump_market_data_to_file pyStrNat (fun _ _ _ => []) (fun _ _ _ _ => [])
        "BTC" "1h" "data.csv" (some 5) none none
      = (.createdThenRaised .indexError, [.lastCandles "BTC" "1h" 5]) :=
  rfl

/-- C5 amended: whenever the selected retrieval returns an empty candle
sequence, `dump_market_data_to_file` does not resolve the case explicitly:
it creates/truncates the destination file and then fails with an
index-out-of-range fault on first-element access (`candles[0]`), on both
retrieval paths. -/
theorem C5_empty_retrieval_faults {α : Type} (pyStr : α → String)
    (glc : String → String → Nat → List (Record α))
    (gc : String → String → String → Option String → List (Record α))
    (symbol interval file : String) (a : Nat) (s : String)
    (start end_ : Option String)
    (hlast : glc symbol interval a = [])
    (hrange : gc symbol interval s end_ = []) :
    dump_market_data_to_file pyStr glc gc symbol interval file
        (some a) start end_
      = (.createdThenRaised .indexError,
         [.lastCandles symbol interval a]) ∧
    dump_market_data_to_file pyStr glc gc symbol interval file
        none (some s) end_
      = (.createdThenRaised .indexError,
         [.rangeCandles symbol interval s end_]) := by
  constructor <;> simp [dump_market_data_to_file, hlast, hrange, dumpRows]

/-- C5 amended witness: a concrete empty-returning adapter makes both dump
paths fault with `IndexError` after creating the file. -/
theorem C5_empty_retrieval_faults_witness :
    dump_market_data_to_file pyStrNat
        (fun _ _ _ => ([] : List (Record Nat))) (fun _ _ _ _ => [])
        "BTC" "30m" "data.csv" (some 3) none none
      = (.createdThenRaised .indexError, [.lastCandles "BTC" "30m" 3]) ∧
    dump_market_data_to_file pyStrNat
        (fun _ _ _ => ([] : List (Record Nat))) (fun _ _ _ _ => [])
        "BTC" "30m" "data.csv" none (some "0") none
      = (.createdThenRaised .indexError,
         [.rangeCandles "BTC" "30m" "0" none]) :=
  C5_empty_retrieval_faults pyStrNat (fun _ _ _ => []) (fun _ _ _ _ => [])
    "BTC" "30m" "data.csv" 3 "0" none none rfl rfl

/-- C2: whenever some data row (any row after the first line) of a loaded
file has fewer than 5 columns or a value among its first five columns that
does not parse as a float, `load_market_data_file` fails — the uncaught
`IndexError`/`ValueError` escapes the loop — and no partial sequence of
the rows parsed before the bad one is returned. -/
theorem C2_malformed_row_fails {α : Type} (pyFloat : String → Option α)
    (file : String) (hf : containsCsv file = true) (hdr : List String)
    (rows : List (List String)) (row : List String) (hmem : row ∈ rows)
    (hbad : malformedRow pyFloat row = true) :
    (∃ e, load_market_data_file pyFloat file (hdr :: rows) = .error e) ∧
    ∀ cs : List (Record α),
      load_market_data_file pyFloat file (hdr :: rows)
        ≠ .ok (.candles cs) := by
  obtain ⟨e, he⟩ :=
    parseRows_error_of_mem hmem (parseRow_not_ok_of_malformed hbad)
  refine ⟨⟨e, ?_⟩, ?_⟩
  · simp [load_market_data_file, hf, he]
  · intro cs h
    simp [load_market_data_file, hf, he] at h

/-- C2 witness: a `.csv` file whose second data row has only 4 columns
fails to load, and the first (good) row is not silently returned. -/
theorem C2_malformed_row_fails_witness :
    (∃ e, load_market_data_file pyFloatNat "data.csv"
        [["h"], ["1", "2", "3", "4", "5"], ["1", "2", "3", "4"]]
      = .error e) ∧
    ∀ cs : List (Record Nat),
      load_market_data_file pyFloatNat "data.csv"
          [["h"], ["1", "2", "3", "4", "5"], ["1", "2", "3", "4"]]
        ≠ .ok (.candles cs) :=
  C2_malformed_row_fails pyFloatNat "data.csv" (by decide) ["h"]
    [["1", "2", "3", "4", "5"], ["1", "2", "3", "4"]] ["1", "2", "3", "4"]
    (by simp) (by decide)

/-- C6: on a well-formed file — every data row has exactly 5 columns, all
parseable as floats — `load_market_data_file` skips the first line
whatever its content and returns the records parsed from the remaining
rows, with fields ts, open, high, low, close in that order, as an ordered
sequence in file order (`parseRowsSpec` maps the rows one-to-one, in
order, to the returned records). -/
theorem C6_load_well_formed {α : Type} (pyFloat : String → Option α)
    (file : String) (hf : containsCsv file = true) (hdr : List String)
    (rows : List (List String)) (recs : List (Record α))
    (hrows : parseRowsSpec pyFloat rows = some recs) :
    load_market_data_file pyFloat file (hdr :: rows)
      = .ok (.candles recs) := by
  simp [load_market_data_file, hf, parseRowsSpec_parseRows hrows]

/-- C6 witness: a concrete two-row file, with a header whose content is
garbage, loads to the two records in file order. -/
theorem C6_load_well_formed_witness :
    load_market_data_file pyFloatNat "data.csv"
        [["garbage", "header"], ["1", "10", "12", "9", "11"],
         ["2", "11", "13", "10", "12"]]
      = .ok (.candles
          [[("ts", 1), ("open", 10), ("high", 12), ("low", 9),
            ("close", 11)],
           [("ts", 2), ("open", 11), ("high", 13), ("low", 10),
            ("close", 12)]]) :=
  C6_load_well_formed pyFloatNat "data.csv" (by decide)
    ["garbage", "header"]
    [["1", "10", "12", "9", "11"], ["2", "11", "13", "10", "12"]]
    [[("ts", 1), ("open", 10), ("high", 12), ("low", 9), ("close", 11)],
     [("ts", 2), ("open", 11), ("high", 13), ("low", 10), ("close", 12)]]
    rfl

/-- C1: round-trip.  For a non-empty candle sequence whose records all
have exactly the keys ts, open, high, low, close in that order, and whose
values survive the print/parse cycle (`float(str(v)) == v`, exact for
Python floats — "up to floating-point parse precision"), dumping via
`dump_market_data_to_file` (here through the `amount` retrieval path) and
loading the written rows back with `load_market_data_file` returns exactly
the original sequence. -/
theorem C1_dump_load_round_trip {α : Type} (pyStr : α → String)
    (pyFloat : String → Option α)
    (glc : String → String → Nat → List (Record α))
    (gc : String → String → String → Option String → List (Record α))
    (symbol interval file : String) (a : Nat) (start end_ : Option String)
    (hfile : containsCsv file = true) (seq : List (Record α))
    (hne : seq ≠ [])
    (hkeys : ∀ c ∈ seq, c.map Prod.fst
      = ["ts", "open", "high", "low", "close"])
    (hrt : ∀ c ∈ seq, ∀ kv ∈ c, pyFloat (pyStr kv.2) = some kv.2)
    (hret : glc symbol interval a = seq) :
    ∃ content,
      dump_market_data_to_file pyStr glc gc symbol interval file
          (some a) start end_
        = (.wrote content, [.lastCandles symbol interval a]) ∧
      load_market_data_file pyFloat file content
        = .ok (.candles seq) := by
  obtain ⟨c0, rest, rfl⟩ := List.exists_cons_of_ne_nil hne
  refine ⟨(c0.map Prod.fst) ::
    ((c0 :: rest).map fun c => c.map fun kv => pyStr kv.2), ?_, ?_⟩
  · simp [dump_market_data_to_file, hret, dumpRows]
  · have hp := parseRows_printRows hkeys hrt
    simp only [List.map_cons] at hp
    simp [load_market_data_file, hfile, hp]

/-- C1 witness: the spec's scenario — two candles with integer-valued
fields — dumps to a header row plus two value rows, and loads back to the
original two records. -/
theorem C1_dump_load_round_trip_witness :
    ∃ content,
      dump_market_data_to_file pyStrNat
          (fun _ _ _ =>
            [[("ts", 1), ("open", 10), ("high", 12), ("low", 9),
              ("close", 11)],
             [("ts", 2), ("open", 11), ("high", 13), ("low", 10),
              ("close", 12)]])
          (fun _ _ _ _ => []) "BTC" "1h" "data.csv" (some 2) none none
        = (.wrote content, [.lastCandles "BTC" "1h" 2]) ∧
      load_market_data_file pyFloatNat "data.csv" content
        = .ok (.candles
            [[("ts", 1), ("open", 10), ("high", 12), ("low", 9),
              ("close", 11)],
             [("ts", 2), ("open", 11), ("high", 13), ("low", 10),
              ("close", 12)]]) :=
  C1_dump_load_round_trip pyStrNat pyFloatNat
    (fun _ _ _ =>
      [[("ts", 1), ("open", 10), ("high", 12), ("low", 9), ("close", 11)],
       [("ts", 2), ("open", 11), ("high", 13), ("low", 10),
        ("close", 12)]])
    (fun _ _ _ _ => []) "BTC" "1h" "data.csv" 2 none none (by decide)
    [[("ts", 1), ("open", 10), ("high", 12), ("low", 9), ("close", 11)],
     [("ts", 2), ("open", 11), ("high", 13), ("low", 10), ("close", 12)]]
    (by decide) (by decide) (by decide) rfl

end CryptoExchangeHandler
